import Mathlib

/-!
# Oasis: wake scheduling and system-time bookkeeping

A shallow embedding of `main/oasis_main.c` (the alarm scheduler
`oasis_get_wakeup_time_us`) and of `main/oasis_timer.c` (the shared clock state, the
SNTP completion callback, the sync task, the initialization gate and the boot-time
polling loop), followed by the properties established about them.

Machine integers are natural numbers or integers with explicit wrap-around:
`unsigned int` is 32 bits wide, `uint64_t` and the `ULL` constants are 64 bits wide,
`long` is 32 bits wide (the ESP32 targets are ILP32) and `time_t` is 64 bits wide.
-/

namespace Oasis

/-! ## Machine integers -/

/-- Number of values of a 32-bit `unsigned int`. -/
def UINT_MOD : Nat := 4294967296

/-- Number of values of a `uint64_t`. -/
def U64_MOD : Nat := 18446744073709551616

/-- Conversion of a signed `int` to `unsigned int` (the usual arithmetic conversion
applied when an `int` meets an `unsigned int` operand). -/
def to_uint (x : Int) : Nat := (x % (UINT_MOD : Int)).toNat

/-- Addition of two `unsigned int` values. -/
def uint_add (a b : Nat) : Nat := (a + b) % UINT_MOD

/-- Subtraction of two `unsigned int` values (wraps below zero). -/
def uint_sub (a b : Nat) : Nat := (a % UINT_MOD + (UINT_MOD - b % UINT_MOD)) % UINT_MOD

/-- Addition of two `uint64_t` values. -/
def u64_add (a b : Nat) : Nat := (a + b) % U64_MOD

/-- Subtraction of two `uint64_t` values (wraps below zero). -/
def u64_sub (a b : Nat) : Nat := (a % U64_MOD + (U64_MOD - b % U64_MOD)) % U64_MOD

/-- Multiplication of two `uint64_t` values. -/
def u64_mul (a b : Nat) : Nat := (a * b) % U64_MOD

/-! ## `oasis_main.c`: constants -/

def HOUR_IN_DAY : Nat := 24
def MIN_IN_HOUR : Nat := 60
def SEC_IN_MIN : Nat := 60
def MSEC_IN_SEC : Nat := 1000
def USEC_IN_MSEC : Nat := 1000

def USEC_IN_SEC : Nat := MSEC_IN_SEC * USEC_IN_MSEC
def USEC_IN_MIN : Nat := SEC_IN_MIN * USEC_IN_SEC
def USEC_IN_HOUR : Nat := MIN_IN_HOUR * USEC_IN_MIN

def MIN_IN_DAY : Nat := HOUR_IN_DAY * MIN_IN_HOUR
def SEC_IN_DAY : Nat := MIN_IN_DAY * SEC_IN_MIN
def MSEC_IN_DAY : Nat := SEC_IN_DAY * MSEC_IN_SEC
def USEC_IN_DAY : Nat := MSEC_IN_DAY * USEC_IN_MSEC

/-! ## `oasis_main.c`: the alarm scheduler -/

/-- The `struct oasis_alarm`: both fields are `unsigned int`. -/
structure oasis_alarm where
  hour : Nat
  minute : Nat
  deriving DecidableEq, Repr

/-- The two fields of `struct tm` read by the scheduler (both are `int`). -/
structure tm where
  tm_hour : Int
  tm_min : Int
  deriving DecidableEq, Repr

/-- The zero-initialised entry `{ /* Sentinal. */ }` closing the alarm table. -/
def sentinel : oasis_alarm := ⟨0, 0⟩

/-- The table `alarms[]` of `oasis_main.c`. -/
def alarms : List oasis_alarm := [⟨7, 30⟩, ⟨17, 30⟩, sentinel]

/-- Body of the `for` loop of `oasis_get_wakeup_time_us`, up to the update of `min`:
the value of `time_difference_usec` computed for the entry `a`. -/
def time_difference_usec (time_info : tm) (a : oasis_alarm) : Nat :=
  -- time_info->tm_hour > alarms[i].hour ? (24 + hour - tm_hour) : (hour - tm_hour)
  let d0 : Nat :=
    if to_uint time_info.tm_hour > a.hour then
      uint_sub (uint_add 24 a.hour) (to_uint time_info.tm_hour)
    else
      uint_sub a.hour (to_uint time_info.tm_hour)
  -- time_difference_usec *= USEC_IN_HOUR
  let d1 : Nat := u64_mul d0 USEC_IN_HOUR
  if to_uint time_info.tm_min > a.minute then
    -- if (!time_difference_usec) time_difference_usec = USEC_IN_DAY
    let d2 : Nat := if d1 = 0 then USEC_IN_DAY else d1
    -- time_difference_usec -= USEC_IN_HOUR
    let d3 : Nat := u64_sub d2 USEC_IN_HOUR
    -- time_difference_usec += (60 - tm_min + minute) * USEC_IN_MIN
    u64_add d3 (u64_mul (uint_add (to_uint (60 - time_info.tm_min)) a.minute) USEC_IN_MIN)
  else
    -- time_difference_usec += (minute - tm_min) * USEC_IN_MIN
    u64_add d1 (u64_mul (uint_sub a.minute (to_uint time_info.tm_min)) USEC_IN_MIN)

/-- The `for (i = 0; alarms[i].hour; i++)` loop of `oasis_get_wakeup_time_us`, run on
the remaining entries of the table with the current value of `min`.  The loop stops at
the first entry whose `hour` is zero; a table without such an entry would be read past
its end, which has no defined result (`none`). -/
def wakeup_loop (time_info : tm) : List oasis_alarm → Nat → Option Nat
  | [], _ => none
  | a :: rest, min =>
    if a.hour = 0 then some min
    else
      let d := time_difference_usec time_info a
      wakeup_loop time_info rest (if d < min then d else min)

/-- The function `oasis_get_wakeup_time_us`, with the broken-down local time
`time_info` (the result of `localtime`) and the alarm table as explicit inputs. -/
def oasis_get_wakeup_time_us (time_info : tm) (table : List oasis_alarm) : Option Nat :=
  wakeup_loop time_info table (2 * USEC_IN_DAY)

/-! ## `oasis_timer.c`: constants and machine integers -/

/-- The `MAX_RETRIES` bound of the boot-time polling loop. -/
def MAX_RETRIES : Nat := 120

/-- The plausibility threshold `MIN_SEC_FOR_INIT`, in seconds. -/
def MIN_SEC_FOR_INIT : Int := 1000

/-- The `USEC_IN_SEC` of `oasis_timer.c`, an `int` constant (`1000 * 1000`). -/
def TIMER_USEC_IN_SEC : Int := 1000 * 1000

def oasis_sync_system_time_task_initial_delay : Nat := 100
def oasis_sync_system_time_task_delay : Nat := 10 * 60 * 1000
def oasis_lt_updater_task_delay : Nat := 100

/-- Conversion to a 32-bit signed `long` (two's complement wrap-around). -/
def to_long (x : Int) : Int := (x + 2147483648) % 4294967296 - 2147483648

/-- Conversion to a 64-bit signed `time_t` (two's complement wrap-around). -/
def to_time_t (x : Int) : Int :=
  (x + 9223372036854775808) % 18446744073709551616 - 9223372036854775808

/-- Decrement of an `unsigned int` (wraps from `0` to `UINT_MAX`). -/
def uint_dec (x : Nat) : Nat := uint_sub x 1

/-! ## `oasis_timer.c`: the shared clock state -/

/-- The `struct timeval`: `tv_sec` is a `time_t`, `tv_usec` a `long`. -/
structure timeval where
  tv_sec : Int
  tv_usec : Int
  deriving DecidableEq, Repr

/-- The `struct oasis_system_time` (the file-scope variable `pst`).  Task and mutex
handles are kept as numbers, `0` standing for `NULL`. -/
structure oasis_system_time where
  timesync_task_handle : Nat
  lt_updater_task_handle : Nat
  boot_timestamp : timeval
  last_timestamp : timeval
  lt_mutex : Nat
  initial_sync_done : Bool
  sntp_waiting_for_cb : Bool
  system_uptime_calculated : Bool
  deriving DecidableEq, Repr

/-- The zero-initialised `pst` at process start. -/
def pst_zero : oasis_system_time :=
  ⟨0, 0, ⟨0, 0⟩, ⟨0, 0⟩, 0, false, false, false⟩

/-- Result of `xSemaphoreTake(pst.lt_mutex, portMAX_DELAY)`, `true` standing for
`pdTRUE`.  With `portMAX_DELAY` the call blocks without a timeout until the mutex is
obtained, so that whenever it returns it has taken the mutex. -/
def xSemaphoreTake (_lt_mutex : Nat) : Bool := true

/-- The callback `oasis_timesync_done`, called with the timestamp `tv`; `uptime` is the
value returned by `esp_timer_get_time()` (microseconds since boot, an `int64_t`), which
the callback stores in the `long` variable `system_uptime`. -/
def oasis_timesync_done (pst : oasis_system_time) (tv : timeval) (uptime : Int) :
    oasis_system_time :=
  let pst1 : oasis_system_time :=
    if tv.tv_sec ≠ 0 then
      let pst0 := { pst with initial_sync_done := true }
      if !pst0.system_uptime_calculated then
        let system_uptime : Int := to_long uptime
        { pst0 with
          boot_timestamp :=
            ⟨to_time_t (tv.tv_sec - to_long (Int.tdiv system_uptime TIMER_USEC_IN_SEC)),
             to_long (tv.tv_usec - system_uptime)⟩
          system_uptime_calculated := true }
      else pst0
    else pst
  { pst1 with sntp_waiting_for_cb := false }

/-- What one iteration of the sync task asks of the SNTP client. -/
inductive sntp_request where
  /-- The call `esp_sntp_restart()`. -/
  | restart
  /-- The calls `esp_sntp_setoperatingmode`, `esp_sntp_setservername`, `esp_sntp_init`. -/
  | init
  deriving DecidableEq, Repr

/-- Outcome of one iteration of the sync task. -/
structure sync_step where
  /-- The state `pst` after the iteration. -/
  pst : oasis_system_time
  /-- The sync started by the iteration, if any. -/
  request : Option sntp_request
  /-- The argument of the closing `vTaskDelay`, in ticks. -/
  delay : Nat
  deriving DecidableEq, Repr

/-- One iteration of the `while (true)` loop of `oasis_sync_system_time_task`.
`ap_info_ok` says whether `esp_wifi_sta_get_ap_info` returns `ESP_OK`, `sntp_enabled`
is the result of `esp_sntp_enabled()`, and `portTICK_PERIOD_MS` is the tick period of
the FreeRTOS configuration. -/
def oasis_sync_system_time_task (portTICK_PERIOD_MS : Nat) (pst : oasis_system_time)
    (ap_info_ok sntp_enabled : Bool) : sync_step :=
  let delay : Nat :=
    if pst.initial_sync_done then oasis_sync_system_time_task_delay / portTICK_PERIOD_MS
    else oasis_sync_system_time_task_initial_delay / portTICK_PERIOD_MS
  if !pst.sntp_waiting_for_cb && ap_info_ok then
    let request : sntp_request :=
      if sntp_enabled then sntp_request.restart else sntp_request.init
    ⟨{ pst with sntp_waiting_for_cb := true }, some request, delay⟩
  else
    ⟨pst, none, delay⟩

/-- One iteration of the `while (true)` loop of `oasis_lt_updater_task`; `current_time`
is the reading of `gettimeofday`. -/
def oasis_lt_updater_task (pst : oasis_system_time) (current_time : timeval) :
    oasis_system_time :=
  if xSemaphoreTake pst.lt_mutex = true then
    { pst with last_timestamp := ⟨current_time.tv_sec, current_time.tv_usec⟩ }
  else pst

/-- The function `oasis_timer_initialization_required`; `current` is the reading of
`gettimeofday`.  Returns the result together with the state `pst` afterwards. -/
def oasis_timer_initialization_required (pst : oasis_system_time) (current : timeval) :
    Bool × oasis_system_time :=
  if current.tv_sec > MIN_SEC_FOR_INIT then
    let pst1 :=
      if xSemaphoreTake pst.lt_mutex = true then
        { pst with last_timestamp := ⟨current.tv_sec, current.tv_usec⟩ }
      else pst
    (false, pst1)
  else
    (true, pst)

/-- The function `oasis_get_systemtime_sec`. -/
def oasis_get_systemtime_sec (pst : oasis_system_time) : Int :=
  if xSemaphoreTake pst.lt_mutex = true then pst.last_timestamp.tv_sec else 0

/-- The function `oasis_get_systemtime_usec`. -/
def oasis_get_systemtime_usec (pst : oasis_system_time) : Int :=
  if xSemaphoreTake pst.lt_mutex = true then pst.last_timestamp.tv_usec else 0

/-! ## `oasis_timer.c`: the boot-time polling loop and `oasis_timer_init` -/

/-- Where the polling loop of `oasis_timer_init` stands when it exits. -/
structure poll_result where
  /-- Number of calls of `vTaskDelay(1000 / portTICK_PERIOD_MS)` performed. -/
  delays : Nat
  /-- Number of calls of `oasis_get_systemtime_sec` performed by the loop condition. -/
  polls : Nat
  /-- The last value returned by `oasis_get_systemtime_sec`. -/
  last_sec : Int
  /-- The value of the variable `retries` after the loop. -/
  retries : Nat
  deriving DecidableEq, Repr

/-- The loop
`while ((oasis_get_systemtime_sec() < MIN_SEC_FOR_INIT) && retries--) vTaskDelay(..)`.
`reads k` is the value returned by the `k`-th call of `oasis_get_systemtime_sec` (the
clock state is rewritten by the updater task while the loop sleeps), `retries` the
current value of the variable, `k` the number of calls made so far. -/
def poll_loop (reads : Nat → Int) : Nat → Nat → poll_result
  | 0, k =>
    if reads k < MIN_SEC_FOR_INIT then
      -- `retries--` yields 0: the loop exits, the variable wraps around
      ⟨k, k + 1, reads k, uint_dec 0⟩
    else ⟨k, k + 1, reads k, 0⟩
  | r + 1, k =>
    if reads k < MIN_SEC_FOR_INIT then
      -- `retries--` yields a non-zero value: one delay, then the condition again
      poll_loop reads r (k + 1)
    else ⟨k, k + 1, reads k, r + 1⟩

/-- The error codes `ESP_OK` and `ESP_FAIL` of `esp_err_t`. -/
inductive esp_err_t where
  | ESP_OK
  | ESP_FAIL
  deriving DecidableEq, Repr

/-- Outcome of `oasis_timer_init`. -/
structure init_result where
  /-- The returned error code. -/
  err : esp_err_t
  /-- The state `pst` as written by `oasis_timer_init` itself. -/
  pst : oasis_system_time
  /-- The polling loop, when it was reached. -/
  poll : Option poll_result
  deriving DecidableEq, Repr

/-- The function `oasis_timer_init`.  `mutex` is the handle returned by
`xSemaphoreCreateMutex`, `current` the reading of `gettimeofday` made by the gate,
`sync_task` and `updater_task` the outcomes of the two `xTaskCreate` calls (`some h`
for `pdPASS` with the task handle `h`), and `reads` the values returned by the
successive calls of `oasis_get_systemtime_sec` in the polling loop. -/
def oasis_timer_init (pst : oasis_system_time) (mutex : Nat) (current : timeval)
    (sync_task updater_task : Option Nat) (reads : Nat → Int) : init_result :=
  let retries : Nat := MAX_RETRIES
  let pst0 := { pst with lt_mutex := mutex }
  let gate := oasis_timer_initialization_required pst0 current
  if !gate.1 then ⟨esp_err_t.ESP_OK, gate.2, none⟩
  else
    match sync_task with
    | none => ⟨esp_err_t.ESP_FAIL, gate.2, none⟩
    | some h1 =>
      let pst1 := { gate.2 with timesync_task_handle := h1 }
      match updater_task with
      | none => ⟨esp_err_t.ESP_FAIL, pst1, none⟩
      | some h2 =>
        let pst2 := { pst1 with lt_updater_task_handle := h2 }
        ⟨esp_err_t.ESP_OK, pst2, some (poll_loop reads retries 0)⟩

/-! ## Runs of the sync task and its callback -/

/-- The two things that happen to the sync flags: an iteration of the sync task, or
the SNTP client calling `oasis_timesync_done`. -/
inductive sync_event where
  | task_iteration (ap_info_ok sntp_enabled : Bool)
  | callback (tv : timeval) (uptime : Int)
  deriving DecidableEq, Repr

/-- Whether the event is an iteration of the sync task. -/
def sync_event.is_task_iteration : sync_event → Bool
  | sync_event.task_iteration _ _ => true
  | sync_event.callback _ _ => false

/-- The state after one event, and the sync request it issued, if any. -/
def run_event (tick : Nat) (pst : oasis_system_time) :
    sync_event → oasis_system_time × Option sntp_request
  | sync_event.task_iteration ap en =>
    ((oasis_sync_system_time_task tick pst ap en).pst,
     (oasis_sync_system_time_task tick pst ap en).request)
  | sync_event.callback tv up => (oasis_timesync_done pst tv up, none)

/-- The state after a sequence of events. -/
def run_events (tick : Nat) : oasis_system_time → List sync_event → oasis_system_time
  | pst, [] => pst
  | pst, e :: es => run_events tick (run_event tick pst e).1 es

/-- The sync requests issued along a sequence of events, in order. -/
def sync_requests (tick : Nat) : oasis_system_time → List sync_event → List sntp_request
  | _, [] => []
  | pst, e :: es =>
    match (run_event tick pst e).2 with
    | some r => r :: sync_requests tick (run_event tick pst e).1 es
    | none => sync_requests tick (run_event tick pst e).1 es

/-- Number of callback events in a sequence of events. -/
def callback_count : List sync_event → Nat
  | [] => 0
  | sync_event.task_iteration _ _ :: es => callback_count es
  | sync_event.callback _ _ :: es => callback_count es + 1

/-! ## The alarm scheduler: per-alarm delay -/

theorem USEC_IN_MIN_eq : USEC_IN_MIN = 60000000 := rfl

theorem USEC_IN_HOUR_eq : USEC_IN_HOUR = 3600000000 := rfl

theorem USEC_IN_DAY_eq : USEC_IN_DAY = 86400000000 := rfl

theorem to_uint_natCast (n : Nat) (h : n < 4294967296) : to_uint (n : Int) = n := by
  unfold to_uint UINT_MOD
  have e : ((n : Int) % ((4294967296 : Nat) : Int)) = ((n % 4294967296 : Nat) : Int) := by
    push_cast
    rfl
  rw [e, Int.toNat_ofNat, Nat.mod_eq_of_lt h]

theorem uint_add_of_lt (a b : Nat) (h : a + b < 4294967296) : uint_add a b = a + b := by
  unfold uint_add UINT_MOD
  exact Nat.mod_eq_of_lt h

theorem uint_sub_of_le (a b : Nat) (hb : b ≤ a) (ha : a < 4294967296) :
    uint_sub a b = a - b := by
  unfold uint_sub UINT_MOD
  omega

theorem u64_add_of_lt (a b : Nat) (h : a + b < 18446744073709551616) :
    u64_add a b = a + b := by
  unfold u64_add U64_MOD
  exact Nat.mod_eq_of_lt h

theorem u64_sub_of_le (a b : Nat) (hb : b ≤ a) (ha : a < 18446744073709551616) :
    u64_sub a b = a - b := by
  unfold u64_sub U64_MOD
  omega

theorem u64_mul_of_lt (a b : Nat) (h : a * b < 18446744073709551616) :
    u64_mul a b = a * b := by
  unfold u64_mul U64_MOD
  exact Nat.mod_eq_of_lt h

/-- The loop body on a local time `hn:mn` and an alarm `ah:am` within their ranges, in
natural numbers: the minutes from now to the next occurrence of the alarm, times the
microseconds of a minute. -/
theorem time_difference_usec_natCast (hn mn ah am : Nat)
    (hh : hn ≤ 23) (hm : mn ≤ 59) (hah : ah ≤ 23) (ham : am ≤ 59) :
    time_difference_usec ⟨(hn : Int), (mn : Int)⟩ ⟨ah, am⟩
      = ((ah * 60 + am + 1440 - (hn * 60 + mn)) % 1440) * 60000000 := by
  have e1 : to_uint (hn : Int) = hn := to_uint_natCast hn (by omega)
  have e2 : to_uint (mn : Int) = mn := to_uint_natCast mn (by omega)
  have e3 : to_uint (60 - (mn : Int)) = 60 - mn := by
    have : (60 - (mn : Int)) = ((60 - mn : Nat) : Int) := by omega
    rw [this]
    exact to_uint_natCast _ (by omega)
  simp only [time_difference_usec, e1, e2, e3, USEC_IN_MIN_eq, USEC_IN_HOUR_eq,
    USEC_IN_DAY_eq]
  by_cases c1 : hn > ah
  · have a1 : uint_add 24 ah = 24 + ah := uint_add_of_lt _ _ (by omega)
    have a2 : uint_sub (24 + ah) hn = 24 + ah - hn := uint_sub_of_le _ _ (by omega) (by omega)
    have a3 : u64_mul (24 + ah - hn) 3600000000 = (24 + ah - hn) * 3600000000 :=
      u64_mul_of_lt _ _ (by omega)
    rw [if_pos c1, a1, a2, a3]
    by_cases c2 : mn > am
    · have b1 : ¬ ((24 + ah - hn) * 3600000000 = 0) := by omega
      have b2 : u64_sub ((24 + ah - hn) * 3600000000) 3600000000
          = (24 + ah - hn) * 3600000000 - 3600000000 :=
        u64_sub_of_le _ _ (by omega) (by omega)
      have b3 : uint_add (60 - mn) am = 60 - mn + am := uint_add_of_lt _ _ (by omega)
      have b4 : u64_mul (60 - mn + am) 60000000 = (60 - mn + am) * 60000000 :=
        u64_mul_of_lt _ _ (by omega)
      rw [if_pos c2, if_neg b1, b2, b3, b4, u64_add_of_lt _ _ (by omega)]
      omega
    · have b3 : uint_sub am mn = am - mn := uint_sub_of_le _ _ (by omega) (by omega)
      have b4 : u64_mul (am - mn) 60000000 = (am - mn) * 60000000 :=
        u64_mul_of_lt _ _ (by omega)
      rw [if_neg c2, b3, b4, u64_add_of_lt _ _ (by omega)]
      omega
  · have a2 : uint_sub ah hn = ah - hn := uint_sub_of_le _ _ (by omega) (by omega)
    have a3 : u64_mul (ah - hn) 3600000000 = (ah - hn) * 3600000000 :=
      u64_mul_of_lt _ _ (by omega)
    rw [if_neg c1, a2, a3]
    by_cases c2 : mn > am
    · have b3 : uint_add (60 - mn) am = 60 - mn + am := uint_add_of_lt _ _ (by omega)
      have b4 : u64_mul (60 - mn + am) 60000000 = (60 - mn + am) * 60000000 :=
        u64_mul_of_lt _ _ (by omega)
      rw [if_pos c2, b3, b4]
      by_cases c3 : (ah - hn) * 3600000000 = 0
      · rw [if_pos c3, u64_sub_of_le _ _ (by omega) (by omega), u64_add_of_lt _ _ (by omega)]
        omega
      · rw [if_neg c3, u64_sub_of_le _ _ (by omega) (by omega), u64_add_of_lt _ _ (by omega)]
        omega
    · have b3 : uint_sub am mn = am - mn := uint_sub_of_le _ _ (by omega) (by omega)
      have b4 : u64_mul (am - mn) 60000000 = (am - mn) * 60000000 :=
        u64_mul_of_lt _ _ (by omega)
      rw [if_neg c2, b3, b4, u64_add_of_lt _ _ (by omega)]
      omega

/-- The loop body on a local time and an alarm entry within their ranges, with the
local time as the integers of `struct tm`. -/
theorem time_difference_usec_eq (h m : Int) (ah am : Nat)
    (hh0 : 0 ≤ h) (hh1 : h ≤ 23) (hm0 : 0 ≤ m) (hm1 : m ≤ 59)
    (hah : ah ≤ 23) (ham : am ≤ 59) :
    (time_difference_usec ⟨h, m⟩ ⟨ah, am⟩ : Int)
      = ((((ah : Int) * 60 + am) - (h * 60 + m)) % 1440) * 60000000 := by
  obtain ⟨hn, rfl⟩ := Int.eq_ofNat_of_zero_le hh0
  obtain ⟨mn, rfl⟩ := Int.eq_ofNat_of_zero_le hm0
  rw [time_difference_usec_natCast hn mn ah am (by omega) (by omega) hah ham]
  omega

/-- Within the ranges, the delay computed for one alarm is less than a day. -/
theorem time_difference_usec_lt_day (h m : Int) (ah am : Nat)
    (hh0 : 0 ≤ h) (hh1 : h ≤ 23) (hm0 : 0 ≤ m) (hm1 : m ≤ 59)
    (hah : ah ≤ 23) (ham : am ≤ 59) :
    time_difference_usec ⟨h, m⟩ ⟨ah, am⟩ < 86400000000 := by
  have e := time_difference_usec_eq h m ah am hh0 hh1 hm0 hm1 hah ham
  omega

/-! ## The alarm scheduler: the loop over the table -/

/-- The loop over a table made of entries with a non-zero hour followed by the
sentinel returns the least of the initial `min` and the delays of the entries. -/
theorem wakeup_loop_spec (time_info : tm) (l : List oasis_alarm)
    (hl : ∀ a ∈ l, a.hour ≠ 0) (min0 : Nat) :
    ∃ v, wakeup_loop time_info (l ++ [sentinel]) min0 = some v ∧ v ≤ min0 ∧
      (∀ a ∈ l, v ≤ time_difference_usec time_info a) ∧
      (v = min0 ∨ ∃ a ∈ l, v = time_difference_usec time_info a) := by
  induction l generalizing min0 with
  | nil =>
    refine ⟨min0, ?_, le_refl _, ?_, Or.inl rfl⟩
    · simp [wakeup_loop, sentinel]
    · intro a ha
      cases ha
  | cons b rest ih =>
    have hb : b.hour ≠ 0 := hl b (List.mem_cons_self _ _)
    have hrest : ∀ a ∈ rest, a.hour ≠ 0 := fun a ha => hl a (List.mem_cons_of_mem _ ha)
    obtain ⟨v, hv, hle, hall, hex⟩ := ih hrest
      (if time_difference_usec time_info b < min0 then time_difference_usec time_info b
        else min0)
    refine ⟨v, ?_, ?_, ?_, ?_⟩
    · simp only [List.cons_append, wakeup_loop, if_neg hb]
      exact hv
    · split_ifs at hle <;> omega
    · intro a ha
      rcases List.mem_cons.mp ha with rfl | ha
      · split_ifs at hle <;> omega
      · exact hall a ha
    · rcases hex with hex | ⟨a, ha, hva⟩
      · split_ifs at hex with c
        · exact Or.inr ⟨b, List.mem_cons_self _ _, hex⟩
        · exact Or.inl hex
      · exact Or.inr ⟨a, List.mem_cons_of_mem _ ha, hva⟩

/-- A value returned by the loop is at most the initial `min`. -/
theorem wakeup_loop_le (time_info : tm) (table : List oasis_alarm) (min0 v : Nat)
    (hv : wakeup_loop time_info table min0 = some v) : v ≤ min0 := by
  induction table generalizing min0 with
  | nil => simp [wakeup_loop] at hv
  | cons b rest ih =>
    by_cases hb : b.hour = 0
    · simp only [wakeup_loop, if_pos hb, Option.some.injEq] at hv
      omega
    · simp only [wakeup_loop, if_neg hb] at hv
      have h := ih _ hv
      split_ifs at h <;> omega

/-- The scheduler on a single entry with a non-zero hour followed by the sentinel. -/
theorem wakeup_single (time_info : tm) (a : oasis_alarm) (ha : a.hour ≠ 0) :
    oasis_get_wakeup_time_us time_info [a, sentinel]
      = some (if time_difference_usec time_info a < 2 * USEC_IN_DAY
          then time_difference_usec time_info a else 2 * USEC_IN_DAY) := by
  simp [oasis_get_wakeup_time_us, wakeup_loop, sentinel, ha]

/-- The scheduler on a single in-range alarm returns the delay of that alarm. -/
theorem wakeup_single_in_range (h m : Int) (a : oasis_alarm)
    (hh0 : 0 ≤ h) (hh1 : h ≤ 23) (hm0 : 0 ≤ m) (hm1 : m ≤ 59)
    (ha0 : 1 ≤ a.hour) (ha1 : a.hour ≤ 23) (ham : a.minute ≤ 59) :
    oasis_get_wakeup_time_us ⟨h, m⟩ [a, sentinel]
      = some (time_difference_usec ⟨h, m⟩ a) := by
  have hlt : time_difference_usec ⟨h, m⟩ a < 86400000000 :=
    time_difference_usec_lt_day h m a.hour a.minute hh0 hh1 hm0 hm1 ha1 ham
  rw [wakeup_single _ a (by omega), USEC_IN_DAY_eq, if_pos (by omega)]

/-- The scheduler on in-range alarms followed by the sentinel: the value returned is
at most two days, is a lower bound of the delays of the alarms, and is two days or the
delay of one of the alarms. -/
theorem wakeup_table_spec (time_info : tm) (l : List oasis_alarm)
    (hl : ∀ a ∈ l, a.hour ≠ 0) :
    ∃ v, oasis_get_wakeup_time_us time_info (l ++ [sentinel]) = some v ∧
      v ≤ 172800000000 ∧
      (∀ a ∈ l, v ≤ time_difference_usec time_info a) ∧
      (v = 172800000000 ∨ ∃ a ∈ l, v = time_difference_usec time_info a) := by
  have e : 2 * USEC_IN_DAY = 172800000000 := rfl
  obtain ⟨v, hv, h1, h2, h3⟩ := wakeup_loop_spec time_info l hl (2 * USEC_IN_DAY)
  rw [e] at h1 h3
  exact ⟨v, hv, h1, h2, h3⟩

/-! ## The alarm scheduler: claims -/

/-- C1. Wraparound correctness for one alarm: for a local time `h:m` (`h` in 0..23, `m`
in 0..59) and a table holding the single alarm `ah:am` (`ah` in 1..23, `am` in 0..59)
followed by the sentinel, `oasis_get_wakeup_time_us` returns
`(((ah*60 + am) - (h*60 + m)) mod 1440) * 60,000,000` microseconds. -/
theorem wakeup_single_alarm_wraparound (h m : Int) (ah am : Nat)
    (hh0 : 0 ≤ h) (hh1 : h ≤ 23) (hm0 : 0 ≤ m) (hm1 : m ≤ 59)
    (hah0 : 1 ≤ ah) (hah1 : ah ≤ 23) (ham : am ≤ 59) :
    ∃ v, oasis_get_wakeup_time_us ⟨h, m⟩ [⟨ah, am⟩, sentinel] = some v ∧
      (v : Int) = ((((ah : Int) * 60 + am) - (h * 60 + m)) % 1440) * 60000000 :=
  ⟨time_difference_usec ⟨h, m⟩ ⟨ah, am⟩,
    wakeup_single_in_range h m ⟨ah, am⟩ hh0 hh1 hm0 hm1 hah0 hah1 ham,
    time_difference_usec_eq h m ah am hh0 hh1 hm0 hm1 (by omega) ham⟩

/-- C1, witness: at 23:45 with the alarm 07:30 the delay is 7h45m, that is
27,900,000,000 microseconds. -/
theorem wakeup_single_alarm_wraparound_witness :
    oasis_get_wakeup_time_us ⟨23, 45⟩ [⟨7, 30⟩, sentinel] = some 27900000000 := by
  obtain ⟨v, hv, e⟩ := wakeup_single_alarm_wraparound 23 45 7 30 (by decide) (by decide)
    (by decide) (by decide) (by decide) (by decide) (by decide)
  have : v = 27900000000 := by omega
  rw [hv, this]

/-- C2. Multi-alarm minimum: for a local time in range and a non-empty list of alarms
(hour in 1..23, minute in 0..59) followed by the sentinel, `oasis_get_wakeup_time_us`
returns the least of the delays it returns for each alarm alone: the value is the
result for some alarm of the list taken alone, and is at most the result for every
alarm of the list taken alone; each of these results is the delay to the next
occurrence of that alarm. -/
theorem wakeup_multi_alarm_minimum (h m : Int) (l : List oasis_alarm)
    (hh0 : 0 ≤ h) (hh1 : h ≤ 23) (hm0 : 0 ≤ m) (hm1 : m ≤ 59)
    (hne : l ≠ [])
    (hl : ∀ a ∈ l, 1 ≤ a.hour ∧ a.hour ≤ 23 ∧ a.minute ≤ 59) :
    ∃ v, oasis_get_wakeup_time_us ⟨h, m⟩ (l ++ [sentinel]) = some v ∧
      (∃ a ∈ l, oasis_get_wakeup_time_us ⟨h, m⟩ [a, sentinel] = some v) ∧
      (∀ a ∈ l, ∃ w, oasis_get_wakeup_time_us ⟨h, m⟩ [a, sentinel] = some w ∧ v ≤ w ∧
        (w : Int) = ((((a.hour : Int) * 60 + a.minute) - (h * 60 + m)) % 1440) * 60000000) := by
  obtain ⟨v, hv, _, hall, hex⟩ :=
    wakeup_table_spec ⟨h, m⟩ l (fun a ha => by have := hl a ha; omega)
  have single : ∀ a ∈ l, oasis_get_wakeup_time_us ⟨h, m⟩ [a, sentinel]
      = some (time_difference_usec ⟨h, m⟩ a) := fun a ha =>
    wakeup_single_in_range h m a hh0 hh1 hm0 hm1 (hl a ha).1 (hl a ha).2.1 (hl a ha).2.2
  refine ⟨v, hv, ?_, ?_⟩
  · rcases hex with hex | ⟨a, ha, hva⟩
    · obtain ⟨b, hb⟩ := List.exists_mem_of_ne_nil l hne
      have h1 := hall b hb
      have h2 : time_difference_usec ⟨h, m⟩ b < 86400000000 :=
        time_difference_usec_lt_day h m b.hour b.minute hh0 hh1 hm0 hm1 (hl b hb).2.1
          (hl b hb).2.2
      omega
    · exact ⟨a, ha, by rw [single a ha, hva]⟩
  · intro a ha
    exact ⟨time_difference_usec ⟨h, m⟩ a, single a ha, hall a ha,
      time_difference_usec_eq h m a.hour a.minute hh0 hh1 hm0 hm1 (hl a ha).2.1 (hl a ha).2.2⟩

/-- C2, witness: with the alarms 07:30 and 17:30 at 12:00 the delay is the one to
17:30, 5h30m, that is 19,800,000,000 microseconds. -/
theorem wakeup_multi_alarm_minimum_witness :
    oasis_get_wakeup_time_us ⟨12, 0⟩ ([⟨7, 30⟩, ⟨17, 30⟩] ++ [sentinel]) = some 19800000000 ∧
      oasis_get_wakeup_time_us ⟨12, 0⟩ [⟨17, 30⟩, sentinel] = some 19800000000 := by
  obtain ⟨v, hv, ⟨a, ha, hav⟩, hall⟩ := wakeup_multi_alarm_minimum 12 0 [⟨7, 30⟩, ⟨17, 30⟩]
    (by decide) (by decide) (by decide) (by decide) (by simp) (by simp)
  obtain ⟨w, hw, hvw, e⟩ := hall ⟨17, 30⟩ (by simp)
  obtain ⟨u, hu, _, e2⟩ := hall a ha
  have huv : u = v := Option.some.inj (hu.symm.trans hav)
  have hw2 : w = 19800000000 := by
    simp only at e
    omega
  have hv2 : v = 19800000000 := by
    simp only [List.mem_cons, List.mem_singleton, List.not_mem_nil, or_false] at ha
    rcases ha with rfl | rfl <;> simp only at e2 <;> omega
  exact ⟨by rw [hv, hv2], by rw [hw, hw2]⟩

/-- C3, as stated, fails: on the table holding only the sentinel the scheduler returns
exactly two days, 172,800,000,000 microseconds, which is not below two days. -/
theorem wakeup_range_counterexample :
    oasis_get_wakeup_time_us ⟨12, 0⟩ [sentinel] = some (2 * 86400000000) ∧
      ¬ ∃ v, oasis_get_wakeup_time_us ⟨12, 0⟩ [sentinel] = some v ∧ v < 2 * 86400000000 := by
  decide

/-- C3, amended. Whatever the local time and the table, a value returned by
`oasis_get_wakeup_time_us` is at most two days. For every local time in range and every
list of alarms (hour in 1..23, minute in 0..59) followed by the sentinel, a value is
returned, it lies in `[0, 2 days]`, it is below two days (indeed below one day) when the
list holds at least one alarm, and it is exactly two days when the list holds none. -/
theorem wakeup_range :
    (∀ (time_info : tm) (table : List oasis_alarm) (v : Nat),
      oasis_get_wakeup_time_us time_info table = some v → v ≤ 2 * 86400000000) ∧
    (∀ (h m : Int) (l : List oasis_alarm),
      0 ≤ h → h ≤ 23 → 0 ≤ m → m ≤ 59 →
      (∀ a ∈ l, 1 ≤ a.hour ∧ a.hour ≤ 23 ∧ a.minute ≤ 59) →
      ∃ v, oasis_get_wakeup_time_us ⟨h, m⟩ (l ++ [sentinel]) = some v ∧
        0 ≤ v ∧ v ≤ 2 * 86400000000 ∧
        (l ≠ [] → v < 86400000000 ∧ v < 2 * 86400000000) ∧
        (l = [] → v = 2 * 86400000000)) := by
  refine ⟨?_, ?_⟩
  · intro time_info table v hv
    have h := wakeup_loop_le time_info table (2 * USEC_IN_DAY) v hv
    rw [USEC_IN_DAY_eq] at h
    exact h
  · intro h m l hh0 hh1 hm0 hm1 hl
    obtain ⟨v, hv, hle, hall, hex⟩ :=
      wakeup_table_spec ⟨h, m⟩ l (fun a ha => by have := hl a ha; omega)
    refine ⟨v, hv, Nat.zero_le _, by omega, ?_, ?_⟩
    · intro hne
      obtain ⟨b, hb⟩ := List.exists_mem_of_ne_nil l hne
      have h1 := hall b hb
      have h2 : time_difference_usec ⟨h, m⟩ b < 86400000000 :=
        time_difference_usec_lt_day h m b.hour b.minute hh0 hh1 hm0 hm1 (hl b hb).2.1
          (hl b hb).2.2
      omega
    · intro hnil
      subst hnil
      rcases hex with hex | ⟨a, ha, _⟩
      · omega
      · cases ha

/-- C3, amended, witness: at 12:00 with the alarms 07:30 and 17:30 the value is below
two days. -/
theorem wakeup_range_witness :
    ∃ v, oasis_get_wakeup_time_us ⟨12, 0⟩ ([⟨7, 30⟩, ⟨17, 30⟩] ++ [sentinel]) = some v ∧
      v < 2 * 86400000000 := by
  obtain ⟨v, hv, _, _, hlt, _⟩ := wakeup_range.2 12 0 [⟨7, 30⟩, ⟨17, 30⟩]
    (by decide) (by decide) (by decide) (by decide) (by simp)
  exact ⟨v, hv, (hlt (by simp)).2⟩

/-- C4, as stated, fails: at 00:30 a table whose entry 00:30 is followed by the
sentinel contains an entry equal to the local time, yet the scheduler returns two
days, not 0, because the entry with hour 0 ends the table. -/
theorem wakeup_exact_match_counterexample :
    (⟨0, 30⟩ : oasis_alarm) ∈ [(⟨0, 30⟩ : oasis_alarm)] ∧
      oasis_get_wakeup_time_us ⟨0, 30⟩ ([⟨0, 30⟩] ++ [sentinel]) = some 172800000000 ∧
      oasis_get_wakeup_time_us ⟨0, 30⟩ ([⟨0, 30⟩] ++ [sentinel]) ≠ some 0 := by
  decide

/-- C4, amended. For every local time `h:m` in range and every list of alarms with hour
in 1..23 and minute in 0..59, followed by the sentinel, that contains an alarm equal to
`h:m`, `oasis_get_wakeup_time_us` returns 0. -/
theorem wakeup_exact_match (h m : Int) (l : List oasis_alarm)
    (hh0 : 0 ≤ h) (hh1 : h ≤ 23) (hm0 : 0 ≤ m) (hm1 : m ≤ 59)
    (hl : ∀ a ∈ l, 1 ≤ a.hour ∧ a.hour ≤ 23 ∧ a.minute ≤ 59)
    (hmem : ∃ a ∈ l, (a.hour : Int) = h ∧ (a.minute : Int) = m) :
    oasis_get_wakeup_time_us ⟨h, m⟩ (l ++ [sentinel]) = some 0 := by
  obtain ⟨v, hv, _, hall, _⟩ :=
    wakeup_table_spec ⟨h, m⟩ l (fun a ha => by have := hl a ha; omega)
  obtain ⟨a, ha, e1, e2⟩ := hmem
  have h1 := hall a ha
  have h2 := time_difference_usec_eq h m a.hour a.minute hh0 hh1 hm0 hm1 (hl a ha).2.1
    (hl a ha).2.2
  have h3 : time_difference_usec ⟨h, m⟩ a = 0 := by
    have : time_difference_usec ⟨h, m⟩ a
        = time_difference_usec ⟨h, m⟩ ⟨a.hour, a.minute⟩ := rfl
    omega
  have : v = 0 := by omega
  rw [hv, this]

/-- C4, amended, witness: at 07:30 with the alarms 07:30 and 17:30 the delay is 0. -/
theorem wakeup_exact_match_witness :
    oasis_get_wakeup_time_us ⟨7, 30⟩ ([⟨7, 30⟩, ⟨17, 30⟩] ++ [sentinel]) = some 0 :=
  wakeup_exact_match 7 30 [⟨7, 30⟩, ⟨17, 30⟩] (by decide) (by decide) (by decide)
    (by decide) (by simp) ⟨⟨7, 30⟩, by simp, by simp, by simp⟩

/-- C5, as stated, fails: at 12:00 the lists `[07:30, 00:15]` and `[00:15, 07:30]` are
permutations of each other with entries in range, yet the first gives 19h30m and the
second two days, because the entry with hour 0 ends the table. -/
theorem wakeup_order_counterexample :
    List.Perm [(⟨7, 30⟩ : oasis_alarm), ⟨0, 15⟩] [⟨0, 15⟩, ⟨7, 30⟩] ∧
      oasis_get_wakeup_time_us ⟨12, 0⟩ ([⟨7, 30⟩, ⟨0, 15⟩] ++ [sentinel]) = some 70200000000 ∧
      oasis_get_wakeup_time_us ⟨12, 0⟩ ([⟨0, 15⟩, ⟨7, 30⟩] ++ [sentinel]) = some 172800000000 ∧
      oasis_get_wakeup_time_us ⟨12, 0⟩ ([⟨7, 30⟩, ⟨0, 15⟩] ++ [sentinel])
        ≠ oasis_get_wakeup_time_us ⟨12, 0⟩ ([⟨0, 15⟩, ⟨7, 30⟩] ++ [sentinel]) := by
  refine ⟨List.Perm.swap _ _ _, ?_, ?_, ?_⟩ <;> decide

/-- C5, amended. For every local time and every two lists of alarms that are
permutations of each other, with hour in 1..23 and minute in 0..59, each followed by
the sentinel, `oasis_get_wakeup_time_us` returns the same delay for both. -/
theorem wakeup_order_independent (h m : Int) (l1 l2 : List oasis_alarm)
    (hperm : List.Perm l1 l2)
    (hl : ∀ a ∈ l1, 1 ≤ a.hour ∧ a.hour ≤ 23 ∧ a.minute ≤ 59) :
    (∃ v, oasis_get_wakeup_time_us ⟨h, m⟩ (l1 ++ [sentinel]) = some v) ∧
      oasis_get_wakeup_time_us ⟨h, m⟩ (l1 ++ [sentinel])
        = oasis_get_wakeup_time_us ⟨h, m⟩ (l2 ++ [sentinel]) := by
  have hl2 : ∀ a ∈ l2, 1 ≤ a.hour ∧ a.hour ≤ 23 ∧ a.minute ≤ 59 :=
    fun a ha => hl a (hperm.mem_iff.mpr ha)
  obtain ⟨v1, hv1, hle1, hall1, hex1⟩ :=
    wakeup_table_spec ⟨h, m⟩ l1 (fun a ha => by have := hl a ha; omega)
  obtain ⟨v2, hv2, hle2, hall2, hex2⟩ :=
    wakeup_table_spec ⟨h, m⟩ l2 (fun a ha => by have := hl2 a ha; omega)
  refine ⟨⟨v1, hv1⟩, ?_⟩
  have h12 : v1 ≤ v2 := by
    rcases hex2 with hex2 | ⟨a, ha, hva⟩
    · omega
    · rw [hva]
      exact hall1 a (hperm.mem_iff.mpr ha)
  have h21 : v2 ≤ v1 := by
    rcases hex1 with hex1 | ⟨a, ha, hva⟩
    · omega
    · rw [hva]
      exact hall2 a (hperm.mem_iff.mp ha)
  rw [hv1, hv2, le_antisymm h12 h21]

/-- C5, amended, witness: at 12:00 the alarms 07:30 and 17:30 give the same delay in
either order. -/
theorem wakeup_order_independent_witness :
    oasis_get_wakeup_time_us ⟨12, 0⟩ ([⟨7, 30⟩, ⟨17, 30⟩] ++ [sentinel])
      = oasis_get_wakeup_time_us ⟨12, 0⟩ ([⟨17, 30⟩, ⟨7, 30⟩] ++ [sentinel]) :=
  (wakeup_order_independent 12 0 [⟨7, 30⟩, ⟨17, 30⟩] [⟨17, 30⟩, ⟨7, 30⟩]
    (List.Perm.swap _ _ _) (by simp)).2

/-! ## The initialization gate -/

/-- C6. Initialization gate: for every raw reading `(s, u)` and every clock state,
`oasis_timer_initialization_required` returns false exactly when `s > 1000`; when it
returns false, `last_timestamp` becomes `(s, u)`, every other field is kept, and
`oasis_get_systemtime_sec` and `oasis_get_systemtime_usec` return `s` and `u`; when it
returns true, `s <= 1000` and the state is unchanged. -/
theorem initialization_gate (pst : oasis_system_time) (s u : Int) :
    ((oasis_timer_initialization_required pst ⟨s, u⟩).1 = false ↔ s > 1000) ∧
    ((oasis_timer_initialization_required pst ⟨s, u⟩).1 = false →
      (oasis_timer_initialization_required pst ⟨s, u⟩).2
          = { pst with last_timestamp := ⟨s, u⟩ } ∧
        oasis_get_systemtime_sec (oasis_timer_initialization_required pst ⟨s, u⟩).2 = s ∧
        oasis_get_systemtime_usec (oasis_timer_initialization_required pst ⟨s, u⟩).2 = u) ∧
    ((oasis_timer_initialization_required pst ⟨s, u⟩).1 = true →
      s ≤ 1000 ∧ (oasis_timer_initialization_required pst ⟨s, u⟩).2 = pst) := by
  by_cases c : s > 1000
  · have e : oasis_timer_initialization_required pst ⟨s, u⟩
        = (false, { pst with last_timestamp := ⟨s, u⟩ }) := by
      simp [oasis_timer_initialization_required, MIN_SEC_FOR_INIT, xSemaphoreTake, c]
    rw [e]
    simp [oasis_get_systemtime_sec, oasis_get_systemtime_usec, xSemaphoreTake, c]
  · have e : oasis_timer_initialization_required pst ⟨s, u⟩ = (true, pst) := by
      simp [oasis_timer_initialization_required, MIN_SEC_FOR_INIT, c]
    rw [e]
    simp only [not_lt] at c
    simp [c]

/-- C6, witness: a reading of 1,700,000,000 s and 250 us on the zero state is stored and
read back. -/
theorem initialization_gate_witness :
    oasis_get_systemtime_sec
        (oasis_timer_initialization_required pst_zero ⟨1700000000, 250⟩).2 = 1700000000 ∧
      oasis_get_systemtime_usec
        (oasis_timer_initialization_required pst_zero ⟨1700000000, 250⟩).2 = 250 :=
  ((initialization_gate pst_zero 1700000000 250).2.1 (by decide)).2

/-! ## The SNTP completion callback -/

/-- What the callback stores: for a state with `system_uptime_calculated` false, a
timestamp with non-zero seconds and an uptime below `2^31` microseconds (nothing
wraps), the seconds field loses the whole seconds of the uptime and the microseconds
field loses the whole uptime. -/
theorem oasis_timesync_done_boot_timestamp (pst : oasis_system_time) (sec usec up : Int)
    (hcalc : pst.system_uptime_calculated = false) (hsec : sec ≠ 0)
    (hs0 : 0 ≤ sec) (hs1 : sec < 9223372036854775808)
    (hu0 : 0 ≤ usec) (hu1 : usec < 1000000)
    (hup0 : 0 ≤ up) (hup1 : up < 2147483648) :
    (oasis_timesync_done pst ⟨sec, usec⟩ up).boot_timestamp
      = ⟨sec - up / 1000000, usec - up⟩ := by
  have e1 : to_long up = up := by unfold to_long; omega
  have e2 : Int.tdiv up TIMER_USEC_IN_SEC = up / 1000000 := by
    rw [Int.tdiv_eq_ediv hup0 (by decide)]
    rfl
  have e3 : to_long (up / 1000000) = up / 1000000 := by unfold to_long; omega
  have e4 : to_time_t (sec - up / 1000000) = sec - up / 1000000 := by
    unfold to_time_t; omega
  have e5 : to_long (usec - up) = usec - up := by unfold to_long; omega
  simp [oasis_timesync_done, hcalc, hsec, e1, e2, e3, e4, e5]

/-- C7: the code at uptime 25 s. For the zero state, the timestamp
`(1,700,000,000 s, 500,000 us)` and an uptime of 25,000,000 us, the callback stores
`(1,699,999,975 s, -24,500,000 us)`, that is 1,699,999,950,500,000 us, while the
timestamp minus the uptime is 1,699,999,975,500,000 us: the uptime is taken off twice. -/
theorem timesync_done_boot_timestamp_at_25s :
    (oasis_timesync_done pst_zero ⟨1700000000, 500000⟩ 25000000).boot_timestamp
        = ⟨1699999975, -24500000⟩ ∧
      (oasis_timesync_done pst_zero ⟨1700000000, 500000⟩ 25000000).system_uptime_calculated
        = true ∧
      (oasis_timesync_done pst_zero ⟨1700000000, 500000⟩ 25000000).boot_timestamp.tv_sec
          * 1000000
        + (oasis_timesync_done pst_zero ⟨1700000000, 500000⟩ 25000000).boot_timestamp.tv_usec
        = 1699999950500000 ∧
      (oasis_timesync_done pst_zero ⟨1700000000, 500000⟩ 25000000).boot_timestamp.tv_sec
          * 1000000
        + (oasis_timesync_done pst_zero ⟨1700000000, 500000⟩ 25000000).boot_timestamp.tv_usec
        ≠ 1700000000 * 1000000 + 500000 - 25000000 := by
  decide

/-- Once `system_uptime_calculated` is true, a call of the callback keeps the boot
timestamp and the flag. -/
theorem oasis_timesync_done_keeps_boot (pst : oasis_system_time) (tv : timeval) (up : Int)
    (hcalc : pst.system_uptime_calculated = true) :
    (oasis_timesync_done pst tv up).boot_timestamp = pst.boot_timestamp ∧
      (oasis_timesync_done pst tv up).system_uptime_calculated = true := by
  unfold oasis_timesync_done
  by_cases c : tv.tv_sec = 0 <;> simp [c, hcalc]

/-- After a call of the callback with non-zero seconds, `system_uptime_calculated` is
true. -/
theorem oasis_timesync_done_sets_flag (pst : oasis_system_time) (tv : timeval) (up : Int)
    (hsec : tv.tv_sec ≠ 0) :
    (oasis_timesync_done pst tv up).system_uptime_calculated = true := by
  unfold oasis_timesync_done
  cases c : pst.system_uptime_calculated <;> simp [c, hsec]

/-- C8. Write-once boot timestamp: calling `oasis_timesync_done` twice with the same
timestamp of non-zero seconds, with any two uptime readings, leaves `boot_timestamp`
after the second call equal to its value after the first; and once
`system_uptime_calculated` is true, no call and no sequence of calls of
`oasis_timesync_done` changes `boot_timestamp`. -/
theorem boot_timestamp_write_once :
    (∀ (pst : oasis_system_time) (tv : timeval) (up1 up2 : Int), tv.tv_sec ≠ 0 →
      (oasis_timesync_done (oasis_timesync_done pst tv up1) tv up2).boot_timestamp
        = (oasis_timesync_done pst tv up1).boot_timestamp) ∧
    (∀ (pst : oasis_system_time) (tv : timeval) (up : Int),
      pst.system_uptime_calculated = true →
      (oasis_timesync_done pst tv up).boot_timestamp = pst.boot_timestamp) ∧
    (∀ (calls : List (timeval × Int)) (pst : oasis_system_time),
      pst.system_uptime_calculated = true →
      (calls.foldl (fun st c => oasis_timesync_done st c.1 c.2) pst).boot_timestamp
        = pst.boot_timestamp) := by
  refine ⟨?_, ?_, ?_⟩
  · intro pst tv up1 up2 hsec
    exact (oasis_timesync_done_keeps_boot _ tv up2
      (oasis_timesync_done_sets_flag pst tv up1 hsec)).1
  · intro pst tv up hcalc
    exact (oasis_timesync_done_keeps_boot pst tv up hcalc).1
  · intro calls
    induction calls with
    | nil => intro pst _; rfl
    | cons c rest ih =>
      intro pst hcalc
      have hk := oasis_timesync_done_keeps_boot pst c.1 c.2 hcalc
      rw [List.foldl_cons, ih _ hk.2, hk.1]

/-- C8, witness: two calls with `(1,700,000,000 s, 500,000 us)` at uptimes 25 s and
26 s on the zero state. -/
theorem boot_timestamp_write_once_witness :
    (oasis_timesync_done (oasis_timesync_done pst_zero ⟨1700000000, 500000⟩ 25000000)
        ⟨1700000000, 500000⟩ 26000000).boot_timestamp
      = (oasis_timesync_done pst_zero ⟨1700000000, 500000⟩ 25000000).boot_timestamp :=
  boot_timestamp_write_once.1 pst_zero ⟨1700000000, 500000⟩ 25000000 26000000 (by decide)

/-! ## The boot-time polling loop -/

/-- The polling loop started with `retries` retries after `k` reads performs at most
`retries` further delays, and it exits either on a read of at least
`MIN_SEC_FOR_INIT` or with the retries exhausted after exactly `retries` delays. -/
theorem poll_loop_spec (reads : Nat → Int) (retries k : Nat) :
    k ≤ (poll_loop reads retries k).delays ∧
      (poll_loop reads retries k).delays ≤ k + retries ∧
      (poll_loop reads retries k).polls = (poll_loop reads retries k).delays + 1 ∧
      (poll_loop reads retries k).last_sec = reads (poll_loop reads retries k).delays ∧
      (MIN_SEC_FOR_INIT ≤ (poll_loop reads retries k).last_sec ∨
        ((poll_loop reads retries k).delays = k + retries ∧
          (poll_loop reads retries k).last_sec < MIN_SEC_FOR_INIT)) := by
  induction retries generalizing k with
  | zero =>
    by_cases c : reads k < MIN_SEC_FOR_INIT
    · simp [poll_loop, c]
    · simp only [poll_loop, if_neg c]
      simp only [not_lt] at c
      simp [c]
  | succ r ih =>
    by_cases c : reads k < MIN_SEC_FOR_INIT
    · simp only [poll_loop, if_pos c]
      have h := ih (k + 1)
      refine ⟨by omega, by omega, h.2.2.1, h.2.2.2.1, ?_⟩
      rcases h.2.2.2.2 with h1 | h1
      · exact Or.inl h1
      · exact Or.inr ⟨by omega, h1.2⟩
    · simp only [poll_loop, if_neg c]
      simp only [not_lt] at c
      simp [c]

/-- The polling loop of `oasis_timer_init` performs at most `MAX_RETRIES` = 120 delays,
and `oasis_timer_init` returns `ESP_OK` whenever both tasks were created, whatever the
loop read. -/
theorem oasis_timer_init_poll_bound (pst : oasis_system_time) (mutex : Nat)
    (current : timeval) (h1 h2 : Nat) (reads : Nat → Int)
    (hreq : current.tv_sec ≤ 1000) :
    (oasis_timer_init pst mutex current (some h1) (some h2) reads).err = esp_err_t.ESP_OK ∧
      (oasis_timer_init pst mutex current (some h1) (some h2) reads).poll
        = some (poll_loop reads MAX_RETRIES 0) ∧
      (poll_loop reads MAX_RETRIES 0).delays ≤ 120 := by
  have hgate : ¬ (current.tv_sec > MIN_SEC_FOR_INIT) := by
    unfold MIN_SEC_FOR_INIT
    omega
  have hb := (poll_loop_spec reads MAX_RETRIES 0).2.1
  refine ⟨?_, ?_, ?_⟩
  · simp [oasis_timer_init, oasis_timer_initialization_required, hgate]
  · simp [oasis_timer_init, oasis_timer_initialization_required, hgate]
  · unfold MAX_RETRIES at hb ⊢
    omega

/-- C9: the code at a read of exactly 1000 seconds. The loop of `oasis_timer_init` exits
at once, with no delay and all 120 retries left, although 1000 does not exceed the
threshold of 1000 and the initialization gate still requires initialization at 1000
seconds; `oasis_timer_init` returns `ESP_OK`. -/
theorem poll_loop_exits_at_threshold :
    poll_loop (fun _ => 1000) MAX_RETRIES 0 = ⟨0, 1, 1000, 120⟩ ∧
      ¬ ((1000 : Int) > MIN_SEC_FOR_INIT) ∧
      (oasis_timer_initialization_required pst_zero ⟨1000, 0⟩).1 = true ∧
      (oasis_timer_init pst_zero 1 ⟨0, 0⟩ (some 1) (some 2) (fun _ => 1000)).err
        = esp_err_t.ESP_OK ∧
      (oasis_timer_init pst_zero 1 ⟨0, 0⟩ (some 1) (some 2) (fun _ => 1000)).poll
        = some ⟨0, 1, 1000, 120⟩ := by
  decide

/-! ## The sync task and its callback -/

/-- The callback always clears `sntp_waiting_for_cb`. -/
theorem oasis_timesync_done_clears_waiting (pst : oasis_system_time) (tv : timeval)
    (up : Int) : (oasis_timesync_done pst tv up).sntp_waiting_for_cb = false := by
  simp [oasis_timesync_done]

/-- While `sntp_waiting_for_cb` is true, iterations of the sync task issue no request
and keep the state. -/
theorem sync_requests_while_waiting (tick : Nat) (evs : List sync_event)
    (pst : oasis_system_time) (hw : pst.sntp_waiting_for_cb = true)
    (hevs : ∀ e ∈ evs, e.is_task_iteration = true) :
    sync_requests tick pst evs = [] ∧ run_events tick pst evs = pst := by
  induction evs with
  | nil => exact ⟨rfl, rfl⟩
  | cons e rest ih =>
    have hrest : ∀ e ∈ rest, e.is_task_iteration = true :=
      fun x hx => hevs x (List.mem_cons_of_mem _ hx)
    cases e with
    | callback tv up =>
      have := hevs _ (List.mem_cons_self _ _)
      simp [sync_event.is_task_iteration] at this
    | task_iteration ap en =>
      have e1 : run_event tick pst (sync_event.task_iteration ap en) = (pst, none) := by
        simp [run_event, oasis_sync_system_time_task, hw]
      simp only [sync_requests, run_events, e1]
      exact ih hrest

/-- Along any run, the number of sync requests issued is at most the number of
callback events, plus one when the run starts with `sntp_waiting_for_cb` false. -/
theorem sync_requests_length_le (tick : Nat) (evs : List sync_event)
    (pst : oasis_system_time) :
    (sync_requests tick pst evs).length
      ≤ callback_count evs + (if pst.sntp_waiting_for_cb then 0 else 1) := by
  induction evs generalizing pst with
  | nil => simp [sync_requests]
  | cons e rest ih =>
    cases e with
    | callback tv up =>
      have h := ih (oasis_timesync_done pst tv up)
      rw [oasis_timesync_done_clears_waiting] at h
      simp only [Bool.false_eq_true, if_false] at h
      simp only [sync_requests, run_event, callback_count]
      split_ifs <;> omega
    | task_iteration ap en =>
      by_cases c : (!pst.sntp_waiting_for_cb && ap) = true
      · have e1 : run_event tick pst (sync_event.task_iteration ap en)
            = ({ pst with sntp_waiting_for_cb := true },
                some (if en then sntp_request.restart else sntp_request.init)) := by
          simp only [run_event, oasis_sync_system_time_task, c, if_true]
        have h := ih { pst with sntp_waiting_for_cb := true }
        simp only [if_true] at h
        have hw : pst.sntp_waiting_for_cb = false := by
          cases hp : pst.sntp_waiting_for_cb <;> simp [hp] at c ⊢
        simp only [sync_requests, e1, callback_count, hw, List.length_cons]
        simp only [Bool.false_eq_true, if_false]
        omega
      · have e1 : run_event tick pst (sync_event.task_iteration ap en) = (pst, none) := by
          simp only [run_event, oasis_sync_system_time_task, c]
          simp
        have h := ih pst
        simp only [sync_requests, e1, callback_count]
        exact h

/-- C10. No duplicate sync requests. One iteration of `oasis_sync_system_time_task`
starts (or restarts) a sync exactly when `sntp_waiting_for_cb` is false and the network
is connected, and then sets `sntp_waiting_for_cb` to true, keeping every other field; an
iteration taken while `sntp_waiting_for_cb` is true or while the network is not
connected starts nothing and leaves the state unchanged; the callback
`oasis_timesync_done` always clears `sntp_waiting_for_cb`. Hence after an iteration that
starts a sync, iterations that follow before the next callback start no sync, and along
any run the syncs started are at most the callbacks received plus one. -/
theorem no_duplicate_sync_requests (tick : Nat) :
    (∀ (pst : oasis_system_time) (ap en : Bool),
      (oasis_sync_system_time_task tick pst ap en).request.isSome = true
        ↔ (pst.sntp_waiting_for_cb = false ∧ ap = true)) ∧
    (∀ (pst : oasis_system_time) (ap en : Bool),
      pst.sntp_waiting_for_cb = false → ap = true →
      (oasis_sync_system_time_task tick pst ap en).pst
          = { pst with sntp_waiting_for_cb := true } ∧
        (oasis_sync_system_time_task tick pst ap en).request
          = some (if en then sntp_request.restart else sntp_request.init)) ∧
    (∀ (pst : oasis_system_time) (ap en : Bool),
      (pst.sntp_waiting_for_cb = true ∨ ap = false) →
      (oasis_sync_system_time_task tick pst ap en).request = none ∧
        (oasis_sync_system_time_task tick pst ap en).pst = pst) ∧
    (∀ (pst : oasis_system_time) (tv : timeval) (up : Int),
      (oasis_timesync_done pst tv up).sntp_waiting_for_cb = false) ∧
    (∀ (pst : oasis_system_time) (ap en : Bool) (mid : List sync_event),
      (oasis_sync_system_time_task tick pst ap en).request.isSome = true →
      (∀ e ∈ mid, e.is_task_iteration = true) →
      sync_requests tick (oasis_sync_system_time_task tick pst ap en).pst mid = []) ∧
    (∀ (pst : oasis_system_time) (evs : List sync_event),
      (sync_requests tick pst evs).length
        ≤ callback_count evs + (if pst.sntp_waiting_for_cb then 0 else 1)) := by
  have start : ∀ (pst : oasis_system_time) (ap en : Bool),
      pst.sntp_waiting_for_cb = false → ap = true →
      (oasis_sync_system_time_task tick pst ap en).pst
          = { pst with sntp_waiting_for_cb := true } ∧
        (oasis_sync_system_time_task tick pst ap en).request
          = some (if en then sntp_request.restart else sntp_request.init) := by
    intro pst ap en hw hap
    simp [oasis_sync_system_time_task, hw, hap]
  have idle : ∀ (pst : oasis_system_time) (ap en : Bool),
      (pst.sntp_waiting_for_cb = true ∨ ap = false) →
      (oasis_sync_system_time_task tick pst ap en).request = none ∧
        (oasis_sync_system_time_task tick pst ap en).pst = pst := by
    intro pst ap en h
    rcases h with h | h <;> simp [oasis_sync_system_time_task, h]
  have iff_start : ∀ (pst : oasis_system_time) (ap en : Bool),
      (oasis_sync_system_time_task tick pst ap en).request.isSome = true
        ↔ (pst.sntp_waiting_for_cb = false ∧ ap = true) := by
    intro pst ap en
    constructor
    · intro h
      by_cases c : pst.sntp_waiting_for_cb = false ∧ ap = true
      · exact c
      · have hidle : pst.sntp_waiting_for_cb = true ∨ ap = false := by
          cases hp : pst.sntp_waiting_for_cb <;> cases ha : ap <;> simp [hp, ha] at c ⊢
        rw [(idle pst ap en hidle).1] at h
        simp at h
    · intro h
      rw [(start pst ap en h.1 h.2).2]
      rfl
  refine ⟨iff_start, start, idle, oasis_timesync_done_clears_waiting, ?_,
    fun pst evs => sync_requests_length_le tick evs pst⟩
  intro pst ap en mid hs hmid
  have h := (iff_start pst ap en).mp hs
  have hw : (oasis_sync_system_time_task tick pst ap en).pst.sntp_waiting_for_cb = true := by
    rw [(start pst ap en h.1 h.2).1]
  exact (sync_requests_while_waiting tick mid _ hw hmid).1

/-- C10, witness: from the zero state with the network connected, the first iteration
starts a sync and two further iterations before any callback start none. -/
theorem no_duplicate_sync_requests_witness :
    sync_requests 10 (oasis_sync_system_time_task 10 pst_zero true false).pst
      [sync_event.task_iteration true true, sync_event.task_iteration true false] = [] :=
  (no_duplicate_sync_requests 10).2.2.2.2.1 pst_zero true false
    [sync_event.task_iteration true true, sync_event.task_iteration true false]
    (by decide) (by decide)

end Oasis
